import Mathlib

/-!
Shallow embedding of `src/transform_results.py` (Gitleaks-Pipeline).

The program wraps the gitleaks CLI: `check_args` massages `sys.argv`,
`run_gitleaks` runs the child process and classifies failures,
`transform_results` condenses the raw JSON report, and
`write_error_message` is the shared terminal error reporter.

Modelling conventions:
- `sys.argv` is an explicit `List String` (index 0 is the program name).
- Timestamps (`datetime.now()`) are opaque `String` parameters.
- The filesystem state of the raw report is a `FileState` parameter:
  the path may be absent, hold non-JSON bytes (so `json.load` raises),
  or hold a JSON array of records.
- Whether a file write inside `write_error_message` succeeds is an
  environment choice `WriteOutcome`; in either case the routine ends in
  `sys.exit(error_code)`, so its codomain is the record `Terminated` and
  it never returns control.
- `sys.exit` raises `SystemExit`, which is not caught by
  `except Exception` nor by `except subprocess.CalledProcessError`, so a
  call to `write_error_message` terminates the enclosing function; the
  embedding therefore short-circuits at each such call.
-/

/-- Python `needle.isPrefixOf hay` on character lists (bytes compared one by one). -/
def beginsWith : List Char → List Char → Bool
  | [], _ => true
  | _ :: _, [] => false
  | a :: as, b :: bs => a == b && beginsWith as bs

/-- Substring occurrence on character lists: does `needle` occur contiguously in `hay`? -/
def charsHasSub (needle : List Char) : List Char → Bool
  | [] => needle.isEmpty
  | c :: cs => beginsWith needle (c :: cs) || charsHasSub needle cs

/-- Python `needle in hay` for strings (contiguous substring test). -/
def strContains (hay needle : String) : Bool :=
  charsHasSub needle.toList hay.toList

/-- Drop leading whitespace characters. -/
def dropLeadingWS : List Char → List Char
  | [] => []
  | c :: cs => if c.isWhitespace then dropLeadingWS cs else c :: cs

/-- Python `s.strip()`: remove leading and trailing whitespace. -/
def pyStrip (s : String) : String :=
  String.mk ((dropLeadingWS (dropLeadingWS s.toList.reverse).reverse))

/-- Python `s.split('\n')[0]`: the text up to the first line break. -/
def firstLine (s : String) : String :=
  String.mk (s.toList.takeWhile (fun c => c != '\n'))

/-- The single-line diagnostic `run_gitleaks` classifies:
`e.stderr.strip().split('\n')[0]`. -/
def diagnosticLine (stderr : String) : String :=
  firstLine (pyStrip stderr)

/-- The `ExitCodes` enum of the source. -/
inductive ExitCodes where
  | SUCCESS
  | ARGUMENT_OR_FLAG_ERROR
  | COMMAND_ERROR
  | FILE_NOT_FOUND
  | NO_FINDINGS
  | NO_GIT_FOLDER
deriving DecidableEq

/-- `.value` of each `ExitCodes` member. -/
def ExitCodes.value : ExitCodes → Int
  | .SUCCESS => 0
  | .ARGUMENT_OR_FLAG_ERROR => 1
  | .COMMAND_ERROR => 2
  | .FILE_NOT_FOUND => 3
  | .NO_FINDINGS => 4
  | .NO_GIT_FOLDER => 5

/-- The `ReportFile` pydantic model (timestamp taken as an opaque string). -/
structure ReportFile where
  base_name : String := "report"
  extension : String := ".json"
  timestamp : String
deriving DecidableEq

/-- `ReportFile.generate_filename`: `f"{base_name}_{timestamp}{extension}"`. -/
def ReportFile.generate_filename (r : ReportFile) : String :=
  r.base_name ++ "_" ++ r.timestamp ++ r.extension

/-- The JSON object `{"exit_code": ..., "error_message": ...}` written by
`write_error_message`. -/
structure ErrorReport where
  exit_code : Int
  error_message : String
deriving DecidableEq

/-- Environment choice: does the `open`/`json.dump` inside
`write_error_message` succeed, or raise with message `msg`? -/
inductive WriteOutcome where
  | ok
  | failed (msg : String)
deriving DecidableEq

/-- Observable outcome of a process termination through
`write_error_message`: the `sys.exit` code, the destination path, the
`ErrorReport` that landed in the destination file (`none` when the write
raised), and the lines printed to standard output. -/
structure Terminated where
  exitCode : Int
  dest : String
  written : Option ErrorReport
  stdoutLines : List String
deriving DecidableEq

/-- `write_error_message(error_message, error_code, report_file)`:
writes the `ErrorReport` JSON to `report_file`; on success prints the
pointer-to-file notice, on failure prints the write error; either way it
ends in `sys.exit(error_code)`, so it always produces a `Terminated`
value and never returns to its caller. -/
def write_error_message (error_message : String) (error_code : Int)
    (report_file : String) (w : WriteOutcome) : Terminated :=
  match w with
  | .ok =>
      { exitCode := error_code
        dest := report_file
        written := some ⟨error_code, error_message⟩
        stdoutLines := ["[!] Please check the output file for more details: " ++ report_file] }
  | .failed e =>
      { exitCode := error_code
        dest := report_file
        written := none
        stdoutLines := ["Error writing to output file: " ++ e] }

/-- One raw Gitleaks record, restricted to the keys the program consumes
(`item.get` on JSON dicts); `none` models an absent key. Other keys are
ignored by the source and therefore not modelled. -/
structure RawFinding where
  File : Option String
  StartLine : Option Int
  EndLine : Option Int
  Description : Option String
deriving DecidableEq

/-- Rendering of one line bound inside the f-string
`f"{item.get('StartLine', 'unknown')}-{item.get('EndLine', 'unknown')}"`:
a present integer prints in decimal, an absent key prints the sentinel. -/
def lineField : Option Int → String
  | none => "unknown"
  | some n => toString n

/-- A `GitleaksResultItem` of the condensed schema. -/
structure GitleaksResultItem where
  filename : String
  line_range : String
  description : String
deriving DecidableEq

/-- The `GitleaksResults` pydantic model: the condensed report. -/
structure GitleaksResults where
  findings : List GitleaksResultItem
deriving DecidableEq

/-- The dictionary built for one record inside the list comprehension of
`transform_results`. -/
def condense (item : RawFinding) : GitleaksResultItem :=
  { filename := item.File.getD "unknown"
    line_range := lineField item.StartLine ++ "-" ++ lineField item.EndLine
    description := item.Description.getD "No description provided" }

/-- State of the raw report path when `transform_results` runs:
`os.path.exists` fails, or `json.load` raises `JSONDecodeError`, or the
file parses to a JSON array of records. -/
inductive FileState where
  | absent
  | invalidJson
  | jsonArray (items : List RawFinding)
deriving DecidableEq

/-- Outcome of `transform_results`: process termination through
`write_error_message`, an uncaught `json.JSONDecodeError` propagating to
the caller, or normal completion with the condensed report (printed to
standard output and written to the freshly named output file). -/
inductive TransformResult where
  | exited (t : Terminated)
  | parseFault
  | success (report : GitleaksResults) (outFile : String)
deriving DecidableEq

/-- Did `transform_results` produce a `GitleaksResults` (printed and
written to a `transformed_report_...` file)? Only the `success`
constructor carries one. -/
def TransformResult.isSuccess : TransformResult → Bool
  | .success _ _ => true
  | _ => false

/-- The `ErrorReport` that landed in a file, if the run ended through
`write_error_message` with a successful write. -/
def TransformResult.errorReportWritten : TransformResult → Option ErrorReport
  | .exited t => t.written
  | _ => none

/-- Did `transform_results` end the process via `sys.exit` (i.e. through
`write_error_message`)? -/
def TransformResult.isExit : TransformResult → Bool
  | .exited _ => true
  | _ => false

/-- Message written for an empty findings list. -/
def noFindingsMsg : String :=
  "No findings detected. Ensure all repository files are correctly placed in your project's main directory for accurate scanning!"

/-- `transform_results(report_path)`. `fs` is the state of `report_path`
on disk, `w` the write outcome inside `write_error_message`, `ts2` the
fresh timestamp taken by `ReportFile.create_with_timestamp` when naming
the transformed output file. -/
def transform_results (fs : FileState) (report_path : String)
    (w : WriteOutcome) (ts2 : String) : TransformResult :=
  match fs with
  | .absent =>
      .exited (write_error_message "Gitleaks report file not found"
        ExitCodes.FILE_NOT_FOUND.value report_path w)
  | .invalidJson => .parseFault
  | .jsonArray items =>
      let findings := items.map condense
      if findings.isEmpty then
        .exited (write_error_message noFindingsMsg
          ExitCodes.NO_FINDINGS.value report_path w)
      else
        .success ⟨findings⟩
          ((ReportFile.mk "transformed_report" ".json" ts2).generate_filename)

/-- Outcome of the child `subprocess.run`: clean exit, or
`CalledProcessError` carrying the captured standard error text. -/
inductive ChildOutcome where
  | success
  | failure (stderr : String)
deriving DecidableEq

/-- Outcome of `run_gitleaks`: process termination through
`write_error_message`, or a normal return to the caller, optionally
after echoing the full captured stderr (the verbose case). -/
inductive RunGitleaksResult where
  | exited (t : Terminated)
  | returned (echoed : Option String)
deriving DecidableEq

/-- The stderr text echoed to the diagnostic stream by `run_gitleaks`,
if any. A run that terminated inside `write_error_message` never
reaches the echo statement. -/
def RunGitleaksResult.echoedStderr : RunGitleaksResult → Option String
  | .exited _ => none
  | .returned e => e

/-- Did `run_gitleaks` end the process via `sys.exit` (i.e. through
`write_error_message`)? -/
def RunGitleaksResult.isExit : RunGitleaksResult → Bool
  | .exited _ => true
  | .returned _ => false

/-- Message written for the missing-.git-folder classification. -/
def noGitMsg : String :=
  "No .git folder found. Ensure you are in the root directory of the repository or add the flag '--no-git'"

/-- First classification check of `run_gitleaks`:
`any(keyword in error_message for keyword in ["unknown flag:", "flag needs an argument:"])`. -/
def commandErrorCheck (error_message : String) : Bool :=
  strContains error_message "unknown flag:"
    || strContains error_message "flag needs an argument:"

/-- Second classification check of `run_gitleaks`:
`any(keyword in error_message for keyword in ["unknown command", "for more information about a command."])`. -/
def argumentErrorCheck (error_message : String) : Bool :=
  strContains error_message "unknown command"
    || strContains error_message "for more information about a command."

/-- Third classification check of `run_gitleaks`:
`"could not create Git cmd" in e.stderr` (the full, unsliced stream). -/
def noGitCheck (stderr : String) : Bool :=
  strContains stderr "could not create Git cmd"

/-- The verbose test of `run_gitleaks`:
`"--verbose" in sys.argv or "-v" in sys.argv`. -/
def verboseRequested (argv : List String) : Bool :=
  argv.contains "--verbose" || argv.contains "-v"

/-- `run_gitleaks(command_args, report_file)`. `child` is the child
process outcome; `argv` is `sys.argv` (used by the verbose check);
`w` the write outcome inside `write_error_message`.
The source writes the three classification checks as independent `if`
statements, but `write_error_message` ends in `sys.exit`, so the first
check whose substring matches terminates the function: the checks
execute as a first-match chain, and the trailing verbose echo runs only
when no check matched. -/
def run_gitleaks (child : ChildOutcome) (argv : List String)
    (report_file : String) (w : WriteOutcome) : RunGitleaksResult :=
  match child with
  | .success => .returned none
  | .failure stderr =>
      let error_message := diagnosticLine stderr
      if commandErrorCheck error_message then
        .exited (write_error_message error_message
          ExitCodes.COMMAND_ERROR.value report_file w)
      else if argumentErrorCheck error_message then
        .exited (write_error_message error_message
          ExitCodes.ARGUMENT_OR_FLAG_ERROR.value report_file w)
      else if noGitCheck stderr then
        .exited (write_error_message noGitMsg
          ExitCodes.NO_GIT_FOLDER.value report_file w)
      else if verboseRequested argv then
        .returned (some stderr)
      else
        .returned none

/-- The usage message of `check_args` (the source concatenates two
adjacent string literals). -/
def usageMsg : String :=
  "Usage: docker run --rm -v $(pwd):/code gitleaks-pipeline <gitleaks-args>\nExample: docker run --rm -v $(pwd):/code/ gitleaks-pipeline detect --no-git"

/-- Outcome of `check_args`: termination through `write_error_message`,
the help passthrough `sys.exit(0)`, or a normal return carrying the
mutated `sys.argv` and the report file path. -/
inductive CheckArgsResult where
  | exited (t : Terminated)
  | helpExit
  | ok (argv : List String) (report_file : String)
deriving DecidableEq

/-- `check_args(report_file)`. `argv` is `sys.argv` on entry; the `ok`
result carries `sys.argv` after the in-place mutations. `list.remove`
deletes the first occurrence, modelled by `List.erase`. -/
def check_args (argv : List String) (report_file : String)
    (w : WriteOutcome) : CheckArgsResult :=
  if argv.length < 2 then
    .exited (write_error_message usageMsg
      ExitCodes.COMMAND_ERROR.value report_file w)
  else if argv.contains "--help" || argv.contains "-h" then
    .helpExit
  else
    let argv1 := if argv.contains "--report-path" then argv
      else argv ++ ["--report-path", report_file]
    let argv2 := if argv1.contains "--config" then
      argv1 ++ ["--config", "src/gitleaks.toml"] else argv1
    let argv3 := if (argv2.drop 1).contains "gitleaks" then
      argv2.erase "gitleaks" else argv2
    .ok argv3 report_file

/-- Outcome of `main`: termination through `write_error_message` (from
`check_args` or `run_gitleaks`), the help passthrough, or reaching the
transformation step (with the stderr echo `run_gitleaks` may have
produced on the way). -/
inductive MainResult where
  | exited (t : Terminated)
  | helpExit
  | transformed (r : TransformResult) (echoed : Option String)
deriving DecidableEq

namespace Pipeline

/-- `main()`. `ts1` is the timestamp of the initial
`ReportFile.create_with_timestamp()`, `ts2` the fresh one taken when
`transform_results` names its output file; `child`, `fs` and `w` are the
environment choices described above. -/
def main (argv : List String) (ts1 : String) (child : ChildOutcome)
    (fs : FileState) (w : WriteOutcome) (ts2 : String) : MainResult :=
  let report_file := (ReportFile.mk "report" ".json" ts1).generate_filename
  match check_args argv report_file w with
  | .exited t => .exited t
  | .helpExit => .helpExit
  | .ok argv2 rf =>
      match run_gitleaks child argv2 rf w with
      | .exited t => .exited t
      | .returned echoed => .transformed (transform_results fs rf w ts2) echoed

end Pipeline

/-- C1: for every raw-report JSON array of length N ≥ 1,
`transform_results` succeeds with exactly N findings in input order
(`items.map condense`, hence no sorting or deduplication), and the
fields of each finding follow the sentinel rules of the list
comprehension: `filename` is the `File` value or `"unknown"`,
`line_range` is `"<StartLine>-<EndLine>"` with `"unknown"` substituted
independently per missing bound, `description` is the `Description`
value or `"No description provided"`. -/
theorem C1_transform_preserves_order_and_fields
    (items : List RawFinding) (p ts : String) (w : WriteOutcome)
    (h : 1 ≤ items.length) :
    transform_results (.jsonArray items) p w ts
      = .success ⟨items.map condense⟩
          ((ReportFile.mk "transformed_report" ".json" ts).generate_filename) ∧
    (items.map condense).length = items.length ∧
    ∀ i (hi : i < items.length) (hi' : i < (items.map condense).length),
      (items.map condense).get ⟨i, hi'⟩ = condense (items.get ⟨i, hi⟩) ∧
      (condense (items.get ⟨i, hi⟩)).filename
        = ((items.get ⟨i, hi⟩).File).getD "unknown" ∧
      (condense (items.get ⟨i, hi⟩)).line_range
        = lineField (items.get ⟨i, hi⟩).StartLine ++ "-"
            ++ lineField (items.get ⟨i, hi⟩).EndLine ∧
      (condense (items.get ⟨i, hi⟩)).description
        = ((items.get ⟨i, hi⟩).Description).getD "No description provided" := by
  refine ⟨?_, List.length_map _ _, ?_⟩
  · cases items with
    | nil => simp at h
    | cons a as => simp [transform_results]
  · intro i hi hi'
    refine ⟨?_, rfl, rfl, rfl⟩
    simp [List.get_eq_getElem, List.getElem_map]

/-- Witness for C1 at a concrete two-record report. -/
theorem C1_witness :
    1 ≤ ([⟨some "a.txt", some 1, some 1, some "x"⟩,
          ⟨none, none, some 6, none⟩] : List RawFinding).length ∧
    (transform_results
        (.jsonArray [⟨some "a.txt", some 1, some 1, some "x"⟩,
          ⟨none, none, some 6, none⟩]) "r.json" .ok "T"
      = .success ⟨[⟨some "a.txt", some 1, some 1, some "x"⟩,
          ⟨none, none, some 6, none⟩].map condense⟩
          ((ReportFile.mk "transformed_report" ".json" "T").generate_filename) ∧
      (([⟨some "a.txt", some 1, some 1, some "x"⟩,
          ⟨none, none, some 6, none⟩] : List RawFinding).map condense).length
        = ([⟨some "a.txt", some 1, some 1, some "x"⟩,
            ⟨none, none, some 6, none⟩] : List RawFinding).length ∧
      ∀ i (hi : i < ([⟨some "a.txt", some 1, some 1, some "x"⟩,
            ⟨none, none, some 6, none⟩] : List RawFinding).length)
        (hi' : i < (([⟨some "a.txt", some 1, some 1, some "x"⟩,
            ⟨none, none, some 6, none⟩] : List RawFinding).map condense).length),
        (([⟨some "a.txt", some 1, some 1, some "x"⟩,
            ⟨none, none, some 6, none⟩] : List RawFinding).map condense).get ⟨i, hi'⟩
          = condense (([⟨some "a.txt", some 1, some 1, some "x"⟩,
            ⟨none, none, some 6, none⟩] : List RawFinding).get ⟨i, hi⟩) ∧
        (condense (([⟨some "a.txt", some 1, some 1, some "x"⟩,
            ⟨none, none, some 6, none⟩] : List RawFinding).get ⟨i, hi⟩)).filename
          = ((([⟨some "a.txt", some 1, some 1, some "x"⟩,
            ⟨none, none, some 6, none⟩] : List RawFinding).get ⟨i, hi⟩).File).getD "unknown" ∧
        (condense (([⟨some "a.txt", some 1, some 1, some "x"⟩,
            ⟨none, none, some 6, none⟩] : List RawFinding).get ⟨i, hi⟩)).line_range
          = lineField (([⟨some "a.txt", some 1, some 1, some "x"⟩,
              ⟨none, none, some 6, none⟩] : List RawFinding).get ⟨i, hi⟩).StartLine ++ "-"
              ++ lineField (([⟨some "a.txt", some 1, some 1, some "x"⟩,
              ⟨none, none, some 6, none⟩] : List RawFinding).get ⟨i, hi⟩).EndLine ∧
        (condense (([⟨some "a.txt", some 1, some 1, some "x"⟩,
            ⟨none, none, some 6, none⟩] : List RawFinding).get ⟨i, hi⟩)).description
          = ((([⟨some "a.txt", some 1, some 1, some "x"⟩,
            ⟨none, none, some 6, none⟩] : List RawFinding).get ⟨i, hi⟩).Description).getD
              "No description provided") :=
  ⟨by decide,
   C1_transform_preserves_order_and_fields
     [⟨some "a.txt", some 1, some 1, some "x"⟩, ⟨none, none, some 6, none⟩]
     "r.json" "T" .ok (by decide)⟩

/-- C2: `write_error_message(M, C, P)` always terminates the process
with exit code C: when the write succeeds the destination file holds
exactly `{"exit_code": C, "error_message": M}` and the pointer-to-file
notice goes to standard output; when the write fails the failure is
printed and the exit code is still C. Its codomain is `Terminated`, so
it never returns to its caller. -/
theorem C2_write_error_message_terminal
    (m : String) (c : Int) (p : String) (w : WriteOutcome) :
    (write_error_message m c p w).exitCode = c ∧
    (write_error_message m c p w).dest = p ∧
    (write_error_message m c p w).written
      = (match w with | .ok => some ⟨c, m⟩ | .failed _ => none) ∧
    (write_error_message m c p w).stdoutLines
      = (match w with
         | .ok => ["[!] Please check the output file for more details: " ++ p]
         | .failed e => ["Error writing to output file: " ++ e]) := by
  cases w <;> simp [write_error_message]

/-- C6: an empty raw-report array makes `transform_results` exit with
code 4 (NO_FINDINGS), writing the `ErrorReport` to the original
raw-report path, and no `GitleaksResults` is produced (no transformed
output file, nothing printed). -/
theorem C6_empty_array_exits_no_findings (p ts : String) (w : WriteOutcome) :
    transform_results (.jsonArray []) p w ts
      = .exited (write_error_message noFindingsMsg
          ExitCodes.NO_FINDINGS.value p w) ∧
    (write_error_message noFindingsMsg ExitCodes.NO_FINDINGS.value p w).exitCode = 4 ∧
    (write_error_message noFindingsMsg ExitCodes.NO_FINDINGS.value p w).dest = p ∧
    (transform_results (.jsonArray []) p w ts).errorReportWritten
      = (match w with | .ok => some ⟨4, noFindingsMsg⟩ | .failed _ => none) ∧
    (transform_results (.jsonArray []) p w ts).isSuccess = false := by
  cases w <;>
    simp [transform_results, write_error_message, ExitCodes.value,
      TransformResult.isSuccess, TransformResult.errorReportWritten]

/-- C7: a nonexistent raw-report path makes `transform_results` exit
through the error reporter with code 3 (FILE_NOT_FOUND) and message
"Gitleaks report file not found", and the destination of the
`ErrorReport` is the very input path. -/
theorem C7_missing_path_exits_file_not_found (p ts : String) (w : WriteOutcome) :
    transform_results .absent p w ts
      = .exited (write_error_message "Gitleaks report file not found"
          ExitCodes.FILE_NOT_FOUND.value p w) ∧
    (write_error_message "Gitleaks report file not found"
        ExitCodes.FILE_NOT_FOUND.value p w).exitCode = 3 ∧
    (write_error_message "Gitleaks report file not found"
        ExitCodes.FILE_NOT_FOUND.value p w).dest = p ∧
    (transform_results .absent p w ts).errorReportWritten
      = (match w with
         | .ok => some ⟨3, "Gitleaks report file not found"⟩
         | .failed _ => none) := by
  cases w <;>
    simp [transform_results, write_error_message, ExitCodes.value,
      TransformResult.errorReportWritten]

/-- C8: an existing raw-report file with invalid JSON makes
`transform_results` propagate the parse fault uncaught: no `sys.exit`
through the error reporter, no `ErrorReport` written, no
`GitleaksResults` produced. -/
theorem C8_malformed_json_propagates (p ts : String) (w : WriteOutcome) :
    transform_results .invalidJson p w ts = .parseFault ∧
    (transform_results .invalidJson p w ts).isExit = false ∧
    (transform_results .invalidJson p w ts).errorReportWritten = none ∧
    (transform_results .invalidJson p w ts).isSuccess = false := by
  simp [transform_results, TransformResult.isExit,
    TransformResult.errorReportWritten, TransformResult.isSuccess]

/-- C3 counterexample: a stderr whose first line matches both the
COMMAND_ERROR substrings and the ARGUMENT_OR_FLAG_ERROR substrings. The
claim says the report ends up containing the result of the *last*
matching check (ARGUMENT_OR_FLAG_ERROR, exit code 1); the code exits
inside the *first* matching check's `write_error_message` (`sys.exit`
raises `SystemExit`), so the report holds COMMAND_ERROR with exit
code 2 and the later check never runs. -/
theorem C3_counterexample :
    commandErrorCheck
      (diagnosticLine "Error: unknown flag: --x unknown command") = true ∧
    argumentErrorCheck
      (diagnosticLine "Error: unknown flag: --x unknown command") = true ∧
    run_gitleaks (.failure "Error: unknown flag: --x unknown command")
        ["prog"] "r.json" .ok
      = .exited (write_error_message
          (diagnosticLine "Error: unknown flag: --x unknown command")
          ExitCodes.COMMAND_ERROR.value "r.json" .ok) ∧
    (write_error_message
        (diagnosticLine "Error: unknown flag: --x unknown command")
        ExitCodes.COMMAND_ERROR.value "r.json" .ok).exitCode = 2 ∧
    ¬ (run_gitleaks (.failure "Error: unknown flag: --x unknown command")
          ["prog"] "r.json" .ok
        = .exited (write_error_message
            (diagnosticLine "Error: unknown flag: --x unknown command")
            ExitCodes.ARGUMENT_OR_FLAG_ERROR.value "r.json" .ok)) := by
  decide

/-- C3 (amended): in `run_gitleaks`'s failure classification the checks
execute in order and the *first* matching check terminates the process:
the report file ends up containing the result of the first matching
check and the process exits with that check's exit code; once a check
matches, later checks do not run. -/
theorem C3_first_match_wins (s : String) (argv : List String)
    (rf : String) (w : WriteOutcome)
    (h : commandErrorCheck (diagnosticLine s) = true
       ∨ argumentErrorCheck (diagnosticLine s) = true
       ∨ noGitCheck s = true) :
    ∃ msg code,
      run_gitleaks (.failure s) argv rf w
        = .exited (write_error_message msg code rf w) ∧
      ((commandErrorCheck (diagnosticLine s) = true
          ∧ msg = diagnosticLine s ∧ code = ExitCodes.COMMAND_ERROR.value)
       ∨ (commandErrorCheck (diagnosticLine s) = false
          ∧ argumentErrorCheck (diagnosticLine s) = true
          ∧ msg = diagnosticLine s ∧ code = ExitCodes.ARGUMENT_OR_FLAG_ERROR.value)
       ∨ (commandErrorCheck (diagnosticLine s) = false
          ∧ argumentErrorCheck (diagnosticLine s) = false
          ∧ noGitCheck s = true
          ∧ msg = noGitMsg ∧ code = ExitCodes.NO_GIT_FOLDER.value)) := by
  by_cases h1 : commandErrorCheck (diagnosticLine s) = true
  · exact ⟨diagnosticLine s, ExitCodes.COMMAND_ERROR.value,
      by simp [run_gitleaks, h1], Or.inl ⟨h1, rfl, rfl⟩⟩
  · rw [Bool.not_eq_true] at h1
    by_cases h2 : argumentErrorCheck (diagnosticLine s) = true
    · exact ⟨diagnosticLine s, ExitCodes.ARGUMENT_OR_FLAG_ERROR.value,
        by simp [run_gitleaks, h1, h2], Or.inr (Or.inl ⟨h1, h2, rfl, rfl⟩)⟩
    · rw [Bool.not_eq_true] at h2
      by_cases h3 : noGitCheck s = true
      · exact ⟨noGitMsg, ExitCodes.NO_GIT_FOLDER.value,
          by simp [run_gitleaks, h1, h2, h3],
          Or.inr (Or.inr ⟨h1, h2, h3, rfl, rfl⟩)⟩
      · rw [Bool.not_eq_true] at h3
        rcases h with ha | hb | hc
        · exact absurd ha (by simp [h1])
        · exact absurd hb (by simp [h2])
        · exact absurd hc (by simp [h3])

/-- Witness for C3 (amended) at the same doubly-matching stderr used by
the counterexample: the first matching check (COMMAND_ERROR) wins. -/
theorem C3_first_match_wins_witness :
    (commandErrorCheck
        (diagnosticLine "Error: unknown flag: --x unknown command") = true
      ∨ argumentErrorCheck
          (diagnosticLine "Error: unknown flag: --x unknown command") = true
      ∨ noGitCheck "Error: unknown flag: --x unknown command" = true) ∧
    (∃ msg code,
      run_gitleaks (.failure "Error: unknown flag: --x unknown command")
          ["prog"] "r.json" .ok
        = .exited (write_error_message msg code "r.json" .ok) ∧
      ((commandErrorCheck
          (diagnosticLine "Error: unknown flag: --x unknown command") = true
          ∧ msg = diagnosticLine "Error: unknown flag: --x unknown command"
          ∧ code = ExitCodes.COMMAND_ERROR.value)
       ∨ (commandErrorCheck
            (diagnosticLine "Error: unknown flag: --x unknown command") = false
          ∧ argumentErrorCheck
              (diagnosticLine "Error: unknown flag: --x unknown command") = true
          ∧ msg = diagnosticLine "Error: unknown flag: --x unknown command"
          ∧ code = ExitCodes.ARGUMENT_OR_FLAG_ERROR.value)
       ∨ (commandErrorCheck
            (diagnosticLine "Error: unknown flag: --x unknown command") = false
          ∧ argumentErrorCheck
              (diagnosticLine "Error: unknown flag: --x unknown command") = false
          ∧ noGitCheck "Error: unknown flag: --x unknown command" = true
          ∧ msg = noGitMsg ∧ code = ExitCodes.NO_GIT_FOLDER.value))) :=
  ⟨Or.inl (by decide),
   C3_first_match_wins "Error: unknown flag: --x unknown command"
     ["prog"] "r.json" .ok (Or.inl (by decide))⟩

/-- C4 counterexample: child failure whose first line matches the
COMMAND_ERROR substrings, with "--verbose" among the arguments. The
claim says the full stderr is echoed regardless of classification
outcome; in the code a matching classification exits inside
`write_error_message` before the echo statement is reached, so nothing
is echoed. -/
theorem C4_counterexample :
    verboseRequested ["prog", "--verbose"] = true ∧
    commandErrorCheck (diagnosticLine "Error: unknown flag: --bogus") = true ∧
    (run_gitleaks (.failure "Error: unknown flag: --bogus")
        ["prog", "--verbose"] "r.json" .ok).echoedStderr = none ∧
    (run_gitleaks (.failure "Error: unknown flag: --bogus")
        ["prog", "--verbose"] "r.json" .ok).isExit = true := by
  decide

/-- C4 (amended): when the child fails and a verbose flag ("--verbose"
or "-v") is present among the arguments, the full captured stderr is
echoed unmodified to the diagnostic stream exactly when no
classification substring matched; when a classification matched, the
process exits inside the classification and no echo occurs. -/
theorem C4_echo_iff_unclassified (s : String) (argv : List String)
    (rf : String) (w : WriteOutcome)
    (hv : verboseRequested argv = true) :
    (run_gitleaks (.failure s) argv rf w).echoedStderr
      = (if commandErrorCheck (diagnosticLine s)
            || argumentErrorCheck (diagnosticLine s)
            || noGitCheck s
         then none else some s) := by
  by_cases h1 : commandErrorCheck (diagnosticLine s) = true
  · simp [run_gitleaks, h1, RunGitleaksResult.echoedStderr]
  · rw [Bool.not_eq_true] at h1
    by_cases h2 : argumentErrorCheck (diagnosticLine s) = true
    · simp [run_gitleaks, h1, h2, RunGitleaksResult.echoedStderr]
    · rw [Bool.not_eq_true] at h2
      by_cases h3 : noGitCheck s = true
      · simp [run_gitleaks, h1, h2, h3, RunGitleaksResult.echoedStderr]
      · rw [Bool.not_eq_true] at h3
        simp [run_gitleaks, h1, h2, h3, hv, RunGitleaksResult.echoedStderr]

/-- Witness for C4 (amended) at an unclassified stderr with "-v"
present: the full stderr is echoed. -/
theorem C4_echo_iff_unclassified_witness :
    verboseRequested ["prog", "-v"] = true ∧
    (run_gitleaks (.failure "some random failure") ["prog", "-v"]
        "r.json" .ok).echoedStderr
      = (if commandErrorCheck (diagnosticLine "some random failure")
            || argumentErrorCheck (diagnosticLine "some random failure")
            || noGitCheck "some random failure"
         then none else some "some random failure") :=
  ⟨by decide,
   C4_echo_iff_unclassified "some random failure" ["prog", "-v"]
     "r.json" .ok (by decide)⟩

/-- C5: a child failure whose diagnostic matches none of the
classification substrings makes `run_gitleaks` fall through: no
`sys.exit`, no error report, a normal return to the caller — and the
caller (`main`) then proceeds to the transformation step. -/
theorem C5_unclassified_failure_falls_through (s : String)
    (argv : List String) (ts1 ts2 : String) (fs : FileState)
    (w : WriteOutcome)
    (h1 : commandErrorCheck (diagnosticLine s) = false)
    (h2 : argumentErrorCheck (diagnosticLine s) = false)
    (h3 : noGitCheck s = false)
    (hlen : 2 ≤ argv.length)
    (hhelp : (argv.contains "--help" || argv.contains "-h") = false) :
    (∀ rf w2, ∃ e, run_gitleaks (.failure s) argv rf w2 = .returned e ∧
        (run_gitleaks (.failure s) argv rf w2).isExit = false) ∧
    (∃ rf2 e, Pipeline.main argv ts1 (.failure s) fs w ts2
        = .transformed (transform_results fs rf2 w ts2) e) := by
  have hrg : ∀ (a : List String) (rf : String) (w2 : WriteOutcome),
      run_gitleaks (.failure s) a rf w2
        = .returned (if verboseRequested a then some s else none) := by
    intro a rf w2
    by_cases hv : verboseRequested a = true
    · simp [run_gitleaks, h1, h2, h3, hv]
    · rw [Bool.not_eq_true] at hv
      simp [run_gitleaks, h1, h2, h3, hv]
  constructor
  · intro rf w2
    exact ⟨_, hrg argv rf w2, by rw [hrg argv rf w2]; rfl⟩
  · have hlt : ¬ argv.length < 2 := by omega
    obtain ⟨a3, hca⟩ : ∃ a3, check_args argv
        ((ReportFile.mk "report" ".json" ts1).generate_filename) w
        = .ok a3 ((ReportFile.mk "report" ".json" ts1).generate_filename) := by
      simp only [check_args, if_neg hlt]
      rw [hhelp]
      simp only [Bool.false_eq_true, if_false]
      exact ⟨_, rfl⟩
    refine ⟨(ReportFile.mk "report" ".json" ts1).generate_filename,
      (if verboseRequested a3 then some s else none), ?_⟩
    simp only [Pipeline.main, hca, hrg]

/-- Witness for C5: an unclassified child failure under a plain
two-argument invocation reaches the transformation step. -/
theorem C5_unclassified_failure_falls_through_witness :
    commandErrorCheck (diagnosticLine "some random failure") = false ∧
    argumentErrorCheck (diagnosticLine "some random failure") = false ∧
    noGitCheck "some random failure" = false ∧
    2 ≤ (["prog", "detect"] : List String).length ∧
    ((["prog", "detect"] : List String).contains "--help"
      || (["prog", "detect"] : List String).contains "-h") = false ∧
    ((∀ rf w2, ∃ e, run_gitleaks (.failure "some random failure")
          ["prog", "detect"] rf w2 = .returned e ∧
        (run_gitleaks (.failure "some random failure")
          ["prog", "detect"] rf w2).isExit = false) ∧
     (∃ rf2 e, Pipeline.main ["prog", "detect"] "T1"
          (.failure "some random failure") (.jsonArray []) .ok "T2"
        = .transformed (transform_results (.jsonArray []) rf2 .ok "T2") e)) :=
  ⟨by decide, by decide, by decide, by decide, by decide,
   C5_unclassified_failure_falls_through "some random failure"
     ["prog", "detect"] "T1" "T2" (.jsonArray []) .ok
     (by decide) (by decide) (by decide) (by decide) (by decide)⟩

/-- Bool `List.contains` is false exactly when the element is not in the
list (helper for the `check_args` theorems). -/
theorem contains_eq_false_iff (l : List String) (x : String) :
    l.contains x = false ↔ x ∉ l := by
  simp

/-- C9 counterexample: the caller supplies the configuration flag
*together with a value* (`--config my.toml`). The claim says the
argument list's configuration settings are then left as given; the code
tests only `"--config" in sys.argv` and appends
`["--config", "src/gitleaks.toml"]` anyway, so the result holds two
`--config` flags and ends with the default path. -/
theorem C9_counterexample :
    (["prog", "detect", "--config", "my.toml"] : List String).contains
        "--config" = true ∧
    check_args ["prog", "detect", "--config", "my.toml"] "r.json" .ok
      = .ok ["prog", "detect", "--config", "my.toml", "--report-path",
          "r.json", "--config", "src/gitleaks.toml"] "r.json" ∧
    (["prog", "detect", "--config", "my.toml", "--report-path", "r.json",
        "--config", "src/gitleaks.toml"] : List String).count "--config" = 2 := by
  decide

/-- C9 (amended): `check_args` appends the fixed default configuration
path (preceded by a repeated `--config` token) exactly when `--config`
occurs anywhere in the argument list — regardless of whether the caller
supplied a value for it; when the flag is absent, the configuration
settings are left as given. (Hypotheses: the run is past the usage and
help early exits, and neither the list nor the report filename contains
the literal `"gitleaks"` or `"--config"` tokens that the later,
unrelated mutations key on.) -/
theorem C9_config_append_unconditional (argv : List String) (rf : String)
    (w : WriteOutcome)
    (hlen : 2 ≤ argv.length)
    (hhelp : (argv.contains "--help" || argv.contains "-h") = false)
    (hg : argv.contains "gitleaks" = false)
    (hrfg : rf ≠ "gitleaks")
    (hrfc : rf ≠ "--config") :
    check_args argv rf w
      = .ok ((if argv.contains "--report-path" then argv
              else argv ++ ["--report-path", rf])
             ++ (if argv.contains "--config" then
                  ["--config", "src/gitleaks.toml"] else [])) rf := by
  have hlt : ¬ argv.length < 2 := by omega
  have hmemg : "gitleaks" ∉ argv := (contains_eq_false_iff argv "gitleaks").mp hg
  have hconf : (if argv.contains "--report-path" then argv
      else argv ++ ["--report-path", rf]).contains "--config"
      = argv.contains "--config" := by
    by_cases hrp : argv.contains "--report-path" = true
    · rw [if_pos hrp]
    · rw [if_neg hrp]
      simp [Ne.symm hrfc]
  have hdrop : ∀ tail : List String, "gitleaks" ∉ tail →
      (((if argv.contains "--report-path" then argv
          else argv ++ ["--report-path", rf]) ++ tail).drop 1).contains
        "gitleaks" = false := by
    intro tail htail
    rw [contains_eq_false_iff]
    intro hmem
    have h2 := List.mem_of_mem_drop hmem
    rcases List.mem_append.mp h2 with hA | hC
    · by_cases hrp : argv.contains "--report-path" = true
      · rw [if_pos hrp] at hA
        exact hmemg hA
      · rw [if_neg hrp] at hA
        rcases List.mem_append.mp hA with h | h
        · exact hmemg h
        · simp at h
          exact hrfg h.symm
    · exact htail hC
  by_cases hcf : argv.contains "--config" = true
  · simp only [check_args, if_neg hlt]
    rw [hhelp]
    simp only [Bool.false_eq_true, if_false]
    rw [hconf, if_pos hcf,
      if_neg (by rw [hdrop ["--config", "src/gitleaks.toml"] (by simp)]; exact Bool.false_ne_true),
      if_pos hcf]
  · rw [Bool.not_eq_true] at hcf
    simp only [check_args, if_neg hlt]
    rw [hhelp]
    simp only [Bool.false_eq_true, if_false]
    rw [hconf, hcf]
    simp only [Bool.false_eq_true, if_false]
    rw [if_neg (by
      have := hdrop [] (by simp)
      rw [List.append_nil] at this
      rw [this]
      exact Bool.false_ne_true)]
    rw [List.append_nil]

/-- Witness for C9 (amended): `--config` supplied with no value — the
default path is still appended, because only membership of the token is
tested. -/
theorem C9_config_append_unconditional_witness :
    2 ≤ (["prog", "detect", "--config"] : List String).length ∧
    ((["prog", "detect", "--config"] : List String).contains "--help"
      || (["prog", "detect", "--config"] : List String).contains "-h") = false ∧
    (["prog", "detect", "--config"] : List String).contains "gitleaks" = false ∧
    "report_T.json" ≠ "gitleaks" ∧
    "report_T.json" ≠ "--config" ∧
    check_args ["prog", "detect", "--config"] "report_T.json" .ok
      = .ok ((if (["prog", "detect", "--config"] : List String).contains
                "--report-path" then ["prog", "detect", "--config"]
              else ["prog", "detect", "--config"]
                ++ ["--report-path", "report_T.json"])
             ++ (if (["prog", "detect", "--config"] : List String).contains
                  "--config" then ["--config", "src/gitleaks.toml"] else []))
          "report_T.json" :=
  ⟨by decide, by decide, by decide, by decide, by decide,
   C9_config_append_unconditional ["prog", "detect", "--config"]
     "report_T.json" .ok (by decide) (by decide) (by decide)
     (by decide) (by decide)⟩

/-- C10: started with fewer than two argument entries, `check_args`
(reached through `main`) terminates the process with exit code 2
(COMMAND_ERROR), writing an `ErrorReport` holding the fixed usage
message to the run's initial timestamped report filename
`report_<ts1>.json`; it never returns — `main` ends at this exit. -/
theorem C10_no_args_usage_exit (argv : List String) (ts1 ts2 : String)
    (child : ChildOutcome) (fs : FileState) (w : WriteOutcome)
    (h : argv.length < 2) :
    Pipeline.main argv ts1 child fs w ts2
      = .exited (write_error_message usageMsg ExitCodes.COMMAND_ERROR.value
          ((ReportFile.mk "report" ".json" ts1).generate_filename) w) ∧
    (write_error_message usageMsg ExitCodes.COMMAND_ERROR.value
        ((ReportFile.mk "report" ".json" ts1).generate_filename) w).exitCode = 2 ∧
    (write_error_message usageMsg ExitCodes.COMMAND_ERROR.value
        ((ReportFile.mk "report" ".json" ts1).generate_filename) w).dest
      = (ReportFile.mk "report" ".json" ts1).generate_filename ∧
    (write_error_message usageMsg ExitCodes.COMMAND_ERROR.value
        ((ReportFile.mk "report" ".json" ts1).generate_filename) w).written
      = (match w with | .ok => some ⟨2, usageMsg⟩ | .failed _ => none) := by
  refine ⟨?_, ?_, ?_, ?_⟩
  · simp [Pipeline.main, check_args, h]
  · cases w <;> rfl
  · cases w <;> rfl
  · cases w <;> rfl

/-- Witness for C10: the bare invocation `["prog"]`. -/
theorem C10_no_args_usage_exit_witness :
    (["prog"] : List String).length < 2 ∧
    (Pipeline.main ["prog"] "T1" .success (.jsonArray []) .ok "T2"
      = .exited (write_error_message usageMsg ExitCodes.COMMAND_ERROR.value
          ((ReportFile.mk "report" ".json" "T1").generate_filename) .ok) ∧
    (write_error_message usageMsg ExitCodes.COMMAND_ERROR.value
        ((ReportFile.mk "report" ".json" "T1").generate_filename) .ok).exitCode = 2 ∧
    (write_error_message usageMsg ExitCodes.COMMAND_ERROR.value
        ((ReportFile.mk "report" ".json" "T1").generate_filename) .ok).dest
      = (ReportFile.mk "report" ".json" "T1").generate_filename ∧
    (write_error_message usageMsg ExitCodes.COMMAND_ERROR.value
        ((ReportFile.mk "report" ".json" "T1").generate_filename) .ok).written
      = (match WriteOutcome.ok with
         | .ok => some ⟨2, usageMsg⟩ | .failed _ => none)) :=
  ⟨by decide,
   C10_no_args_usage_exit ["prog"] "T1" "T2" .success (.jsonArray []) .ok
     (by decide)⟩
